import Mathlib

/-!
Shallow embedding of `src/run_batch1.py`, the core scraping pipeline:
HTTP fetch wrappers (`safe_get`, `head_ok`), careers-link discovery
(`find_careers`), ATS classification (`detect_ats`), job extraction
(`scrape_jobs_simple`) and the per-company orchestrator (`process_company`).

External collaborators are modelled as explicit parameters:
- the network is an oracle pair `getf headf : String → Except Unit Response`
  (a `requests.get` / `requests.head` transport that either raises, `.error`,
  or yields a `Response` with a status code and a body);
- BeautifulSoup's `soup.select("a[href]")` is an oracle
  `parse : String → List Anchor` giving the document-order list of anchors
  (href attribute value and visible text) of an HTML string;
- `urllib.parse.urljoin` is an oracle `urljoin : String → String → String`.
All pipeline logic itself is translated directly from the source.
-/

namespace WebScrape

/-- A `requests` response: status code and body text. -/
structure Response where
  status_code : Nat
  text : String
deriving DecidableEq

/-- An HTML anchor element carrying an `href` attribute, as produced by
`soup.select("a[href]")`: its href value and its visible text
(`a.get_text(" ", strip=True)`). -/
structure Anchor where
  href : String
  text : String
deriving DecidableEq

/-- One extracted job posting (`{"url": ..., "title": ..., "location": "", "date": ""}`). -/
structure JobPosting where
  url : String
  title : String
  location : String
  date : String
deriving DecidableEq

/-- The per-company output row assembled by `process_company`, with the three
fixed-width job slots kept as a list of exactly three `JobPosting`s. -/
structure CompanyResult where
  companyName : String
  websiteURL : String
  linkedinURL : String
  careersURL : String
  jobsListingURL : String
  provider : String
  jobs : List JobPosting
deriving DecidableEq

/-- `CAREERS_KEYWORDS` from the source. -/
def CAREERS_KEYWORDS : List String := ["career", "careers", "jobs", "join"]

/-- `ATS_PATTERNS` from the source, in dict insertion order. -/
def ATS_PATTERNS : List (String × String) :=
  [("Personio", "personio.com"),
   ("Teamtailor", "teamtailor.com"),
   ("Zoho Recruit", "zohorecruit.com"),
   ("Lever", "lever.co"),
   ("Greenhouse", "greenhouse.io")]

/-- The alternatives of the job-title regex in `scrape_jobs_simple`. -/
def ROLE_KEYWORDS : List String :=
  ["engineer", "manager", "developer", "analyst", "designer",
   "specialist", "intern", "consultant", "coordinator", "technician"]

/-- The TLD candidate list tried by the website-guessing loop of
`process_company`, in source order. -/
def TLDS : List String := ["com", "org", "io", "ai", "net", "co"]

/-- Whether `needle` occurs at the start of the list. -/
def isPrefOf : List Char → List Char → Bool
  | [], _ => true
  | _ :: _, [] => false
  | a :: as, b :: bs => a == b && isPrefOf as bs

/-- Whether `needle` occurs anywhere in `hay` (Python's `needle in hay`). -/
def containsSub (needle : List Char) : List Char → Bool
  | [] => isPrefOf needle []
  | hay@(_ :: t) => isPrefOf needle hay || containsSub needle t

/-- Python's substring test `pat in s`. -/
def strContains (s pat : String) : Bool :=
  containsSub pat.data s.data

/-- Python's `s.lower()` (character-wise lowercasing). -/
def pyLower (s : String) : String :=
  String.mk (s.data.map Char.toLower)

/-- Python's `s.strip()`: drop leading and trailing whitespace. -/
def pyStrip (s : String) : String :=
  String.mk (((s.data.dropWhile Char.isWhitespace).reverse.dropWhile Char.isWhitespace).reverse)

/-- Python's `s.startswith(pat)`. -/
def strStartsWith (s pat : String) : Bool :=
  isPrefOf pat.data s.data

/-- Python's `s.replace(' ', '')`. -/
def stripSpaces (s : String) : String :=
  String.mk (s.data.filter (fun c => decide (c ≠ ' ')))

/-- Python's `s.replace(' ', '-')`. -/
def hyphenate (s : String) : String :=
  String.mk (s.data.map (fun c => if c = ' ' then '-' else c))

/-- `safe_get`: GET via the transport oracle; the response is returned only
when no exception was raised and the status code is `< 400`. -/
def safe_get (getf : String → Except Unit Response) (url : String) : Option Response :=
  match getf url with
  | Except.error _ => none
  | Except.ok r => if r.status_code < 400 then some r else none

/-- `head_ok`: HEAD via the transport oracle; true iff no exception and
status `< 400`. -/
def head_ok (headf : String → Except Unit Response) (url : String) : Bool :=
  match headf url with
  | Except.error _ => false
  | Except.ok r => decide (r.status_code < 400)

/-- `detect_ats`: first ATS pattern (in `ATS_PATTERNS` order) occurring in a
non-empty `url`; `"Internal"` for a non-empty unmatched url; `""` for `""`. -/
def detect_ats (url : String) : String :=
  match ATS_PATTERNS.find? (fun p => decide (url ≠ "") && strContains url p.2) with
  | some p => p.1
  | none => if url ≠ "" then "Internal" else ""

/-- The keyword test of `find_careers` on one anchor:
`any(kw in href.lower() or kw in text for kw in CAREERS_KEYWORDS)`, where
`href` has been stripped and `text` lowercased as in the source. -/
def careersMatch (a : Anchor) : Bool :=
  CAREERS_KEYWORDS.any (fun kw =>
    strContains (pyLower (pyStrip a.href)) kw || strContains (pyLower a.text) kw)

/-- The href returned by `find_careers` for a matching anchor: the stripped
href itself when it starts with `"http"`, else `urljoin(base_url, href)`. -/
def resolveCareers (urljoin : String → String → String) (base_url : String) (a : Anchor) : String :=
  if strStartsWith (pyStrip a.href) "http" then pyStrip a.href else urljoin base_url (pyStrip a.href)

/-- `find_careers`: first anchor of the parsed document whose stripped
lowercased href or lowercased text contains a careers keyword, resolved
against the base URL; `""` when no anchor matches. -/
def find_careers (parse : String → List Anchor) (urljoin : String → String → String)
    (base_url : String) (html : String) : String :=
  match (parse html).find? careersMatch with
  | some a => resolveCareers urljoin base_url a
  | none => ""

/-- The regex test of `scrape_jobs_simple`:
`re.search(r"(engineer|manager|...)", title, re.I)` — case-insensitive
substring match of any role keyword. -/
def titleMatches (title : String) : Bool :=
  ROLE_KEYWORDS.any (fun kw => strContains (pyLower title) kw)

/-- The job posting emitted for a matching anchor: href resolved against the
listings URL when not already starting with `"http"`; location and date empty. -/
def resolveJob (urljoin : String → String → String) (listings_url : String) (a : Anchor) : JobPosting :=
  { url := if strStartsWith a.href "http" then a.href else urljoin listings_url a.href
    title := a.text
    location := ""
    date := "" }

/-- An anchor that contributes a job posting: non-empty visible text, text
matching the role-keyword pattern, non-empty href. -/
def goodAnchor (a : Anchor) : Bool :=
  decide (a.text ≠ "") && titleMatches a.text && decide (a.href ≠ "")

/-- The anchor loop of `scrape_jobs_simple`, mirroring the Python `for` body:
empty text → `continue`; matching text with empty href → `continue`; matching
text with href → append the posting; after any non-`continue` iteration,
`break` once three postings are collected. -/
def scrape_loop (urljoin : String → String → String) (listings_url : String) :
    List Anchor → List JobPosting → List JobPosting
  | [], jobs => jobs
  | a :: rest, jobs =>
    if a.text = "" then
      scrape_loop urljoin listings_url rest jobs
    else if titleMatches a.text then
      if a.href = "" then
        scrape_loop urljoin listings_url rest jobs
      else
        let jobs2 := jobs ++ [resolveJob urljoin listings_url a]
        if jobs2.length ≥ 3 then jobs2 else scrape_loop urljoin listings_url rest jobs2
    else
      if jobs.length ≥ 3 then jobs else scrape_loop urljoin listings_url rest jobs

/-- `scrape_jobs_simple`: fetch the listings page (failure → `[]`), parse it,
and run the anchor loop starting from the empty accumulator. -/
def scrape_jobs_simple (getf : String → Except Unit Response) (parse : String → List Anchor)
    (urljoin : String → String → String) (listings_url : String) : List JobPosting :=
  match safe_get getf listings_url with
  | none => []
  | some r => scrape_loop urljoin listings_url (parse r.text) []

/-- The website candidate synthesized by `process_company` for one TLD:
`f"https://{name_clean.lower().replace(' ', '')}.{tld}"`. -/
def candidateUrl (name_clean tld : String) : String :=
  "https://" ++ stripSpaces (pyLower name_clean) ++ "." ++ tld

/-- The TLD-guessing loop of `process_company`: first candidate whose HEAD
probe succeeds, else `""`. -/
def guessWebsite (headf : String → Except Unit Response) (name_clean : String) : String :=
  match TLDS.find? (fun tld => head_ok headf (candidateUrl name_clean tld)) with
  | some tld => candidateUrl name_clean tld
  | none => ""

/-- The careers step of `process_company`: only when a website was guessed,
GET its homepage and, if that succeeds, scan it for a careers link. -/
def pipelineCareers (getf : String → Except Unit Response) (parse : String → List Anchor)
    (urljoin : String → String → String) (website : String) : String :=
  if website ≠ "" then
    match safe_get getf website with
    | some r => find_careers parse urljoin website r.text
    | none => ""
  else ""

/-- `jobs_url = careers or website or ""`. -/
def pipelineJobsUrl (careers website : String) : String :=
  if careers ≠ "" then careers else if website ≠ "" then website else ""

/-- `jobs = scrape_jobs_simple(jobs_url) if jobs_url else []`. -/
def pipelineJobs (getf : String → Except Unit Response) (parse : String → List Anchor)
    (urljoin : String → String → String) (jobs_url : String) : List JobPosting :=
  if jobs_url ≠ "" then scrape_jobs_simple getf parse urljoin jobs_url else []

/-- The empty placeholder filling unused job slots. -/
def emptyJob : JobPosting := { url := "", title := "", location := "", date := "" }

/-- The slot-filling loop `for i in range(3)`: slot `i` is `jobs[i]` when
`i < len(jobs)`, else the empty placeholder. -/
def padJobs (jobs : List JobPosting) : List JobPosting :=
  (List.range 3).map (fun i => jobs.getD i emptyJob)

/-- `process_company`: the full per-company pipeline, as a pure function of
the transport, parser and urljoin oracles and the input name. -/
def process_company (getf headf : String → Except Unit Response) (parse : String → List Anchor)
    (urljoin : String → String → String) (name : String) : CompanyResult :=
  let name_clean := pyStrip name
  let website := guessWebsite headf name_clean
  let careers := pipelineCareers getf parse urljoin website
  let jobs_url := pipelineJobsUrl careers website
  { companyName := name_clean
    websiteURL := website
    linkedinURL := "https://www.linkedin.com/company/" ++ hyphenate (pyLower name_clean) ++ "/"
    careersURL := careers
    jobsListingURL := jobs_url
    provider := detect_ats jobs_url
    jobs := padJobs (pipelineJobs getf parse urljoin jobs_url) }

/-- The un-padded job list produced by the pipeline for a name, spelled out
through the same steps `process_company` takes. -/
def pipelineRawJobs (getf headf : String → Except Unit Response) (parse : String → List Anchor)
    (urljoin : String → String → String) (name : String) : List JobPosting :=
  pipelineJobs getf parse urljoin
    (pipelineJobsUrl (pipelineCareers getf parse urljoin (guessWebsite headf (pyStrip name)))
      (guessWebsite headf (pyStrip name)))

/-! ### Helper lemmas -/

theorem find?_first {α : Type} (p : α → Bool) (l1 : List α) (a : α) (l2 : List α)
    (h1 : ∀ b ∈ l1, p b = false) (ha : p a = true) :
    (l1 ++ a :: l2).find? p = some a := by
  induction l1 with
  | nil => simp [List.find?_cons, ha]
  | cons b t ih =>
    have hb : p b = false := h1 b (List.mem_cons_self b t)
    simp only [List.cons_append, List.find?_cons, hb]
    exact ih (fun x hx => h1 x (List.mem_cons_of_mem b hx))

theorem padJobs_eq (l : List JobPosting) :
    padJobs l = l.take 3 ++ List.replicate (3 - l.length) emptyJob := by
  match l with
  | [] => rfl
  | [a] => rfl
  | [a, b] => rfl
  | a :: b :: c :: t =>
    show [(a :: b :: c :: t).getD 0 emptyJob, (a :: b :: c :: t).getD 1 emptyJob,
          (a :: b :: c :: t).getD 2 emptyJob] = _
    have h3 : 3 - (a :: b :: c :: t).length = 0 := by simp
    rw [h3]
    simp [List.getD]

theorem padJobs_length (l : List JobPosting) : (padJobs l).length = 3 := by
  simp [padJobs]

theorem scrape_loop_eq (uj : String → String → String) (lurl : String) :
    ∀ (anchors : List Anchor) (jobs : List JobPosting), jobs.length < 3 →
      scrape_loop uj lurl anchors jobs =
        jobs ++ (((anchors.filter goodAnchor).take (3 - jobs.length)).map (resolveJob uj lurl)) := by
  intro anchors
  induction anchors with
  | nil => intro jobs _; simp [scrape_loop]
  | cons a rest ih =>
    intro jobs h
    by_cases ht : a.text = ""
    · have hg : goodAnchor a = false := by simp [goodAnchor, ht]
      simp [scrape_loop, ht, List.filter_cons, hg, ih jobs h]
    · by_cases hm : titleMatches a.text
      · by_cases hh : a.href = ""
        · have hg : goodAnchor a = false := by simp [goodAnchor, hh]
          simp [scrape_loop, ht, hm, hh, List.filter_cons, hg, ih jobs h]
        · have hg : goodAnchor a = true := by simp [goodAnchor, ht, hm, hh]
          obtain ⟨k, hk⟩ : ∃ k, 3 - jobs.length = k + 1 := ⟨2 - jobs.length, by omega⟩
          by_cases hfull : (jobs ++ [resolveJob uj lurl a]).length ≥ 3
          · have hlen : jobs.length = 2 := by simp at hfull; omega
            have hk1 : 3 - jobs.length = 1 := by omega
            simp [scrape_loop, ht, hm, hh, List.filter_cons, hg, hk1, hlen]
          · have hlt : (jobs ++ [resolveJob uj lurl a]).length < 3 := by omega
            have hk2 : 3 - (jobs ++ [resolveJob uj lurl a]).length = k := by
              simp; omega
            simp only [scrape_loop, if_neg ht, if_pos hm, if_neg hh, if_neg hfull,
              List.filter_cons, hg, if_pos rfl]
            rw [ih _ hlt, hk2, hk]
            simp [List.take_succ_cons]
      · have hg : goodAnchor a = false := by simp [goodAnchor, hm]
        have hnf : ¬ jobs.length ≥ 3 := by omega
        simp [scrape_loop, ht, hm, hnf, List.filter_cons, hg, ih jobs h]

theorem scrape_jobs_simple_eq (getf : String → Except Unit Response)
    (parse : String → List Anchor) (uj : String → String → String) (url : String) :
    scrape_jobs_simple getf parse uj url =
      match safe_get getf url with
      | none => []
      | some r => (((parse r.text).filter goodAnchor).take 3).map (resolveJob uj url) := by
  unfold scrape_jobs_simple
  cases safe_get getf url with
  | none => rfl
  | some r =>
    have := scrape_loop_eq uj url (parse r.text) [] (by simp)
    simpa using this

theorem scrape_jobs_simple_length_le (getf : String → Except Unit Response)
    (parse : String → List Anchor) (uj : String → String → String) (url : String) :
    (scrape_jobs_simple getf parse uj url).length ≤ 3 := by
  rw [scrape_jobs_simple_eq]
  cases safe_get getf url with
  | none => simp
  | some r => simp [List.length_take]

theorem linkedin_ne_empty (x : String) :
    "https://www.linkedin.com/company/" ++ x ++ "/" ≠ "" := by
  intro h
  have hl := congrArg String.length h
  have h33 : ("https://www.linkedin.com/company/" : String).length = 33 := rfl
  simp [String.length_append, h33] at hl

/-! ### Claim theorems -/

/-- Claim C2: `detect_ats` is a pure function of the URL string: for the empty
URL it returns `""`; for a non-empty URL it returns the name of the first
matching signature in `ATS_PATTERNS` order; for a non-empty URL matching no
signature it returns `"Internal"`; `detect_ats "https://jobs.lever.co/acme"`
is `"Lever"` and `detect_ats "https://acme.com/careers"` is `"Internal"`. -/
theorem detect_ats_spec (url : String) :
    detect_ats "" = "" ∧
    (url ≠ "" →
      (∀ l1 p l2, ATS_PATTERNS = l1 ++ p :: l2 →
        (∀ q ∈ l1, strContains url q.2 = false) → strContains url p.2 = true →
        detect_ats url = p.1) ∧
      ((∀ q ∈ ATS_PATTERNS, strContains url q.2 = false) → detect_ats url = "Internal")) ∧
    detect_ats "https://jobs.lever.co/acme" = "Lever" ∧
    detect_ats "https://acme.com/careers" = "Internal" := by
  refine ⟨by decide, fun hne => ⟨?_, ?_⟩, by decide, by decide⟩
  · intro l1 p l2 hsplit h1 hp
    unfold detect_ats
    rw [hsplit, find?_first _ l1 p l2 ?_ ?_]
    · intro q hq
      simp [h1 q hq]
    · simp [hne, hp]
  · intro hall
    unfold detect_ats
    rw [List.find?_eq_none.mpr ?_]
    · simp [hne]
    · intro q hq
      simp [hall q hq]

/-- Witness for C2 at a concrete URL containing the first signature. -/
theorem detect_ats_spec_witness :
    detect_ats "https://x.personio.com/jobs" = "Personio" :=
  ((detect_ats_spec "https://x.personio.com/jobs").2.1 (by decide)).1
    [] ("Personio", "personio.com")
    [("Teamtailor", "teamtailor.com"), ("Zoho Recruit", "zohorecruit.com"),
     ("Lever", "lever.co"), ("Greenhouse", "greenhouse.io")]
    rfl (by decide) (by decide)

/-- Claim C6: `safe_get` returns the response exactly when the transport does
not raise and the status is `< 400`, and `none` on a raised exception or a
status `≥ 400`; `head_ok` is true iff the HEAD transport yields a status
`< 400`, and a raised exception gives `false`. -/
theorem fetcher_spec (getf headf : String → Except Unit Response) (url : String) :
    (∀ r : Response, safe_get getf url = some r ↔
      getf url = Except.ok r ∧ r.status_code < 400) ∧
    (safe_get getf url = none ↔
      getf url = Except.error () ∨ ∃ r, getf url = Except.ok r ∧ 400 ≤ r.status_code) ∧
    (head_ok headf url = true ↔ ∃ r, headf url = Except.ok r ∧ r.status_code < 400) ∧
    (headf url = Except.error () → head_ok headf url = false) := by
  refine ⟨?_, ?_, ?_, ?_⟩
  · intro r
    cases hg : getf url with
    | error e => simp [safe_get, hg]
    | ok s =>
      by_cases hs : s.status_code < 400
      · constructor
        · intro h
          simp [safe_get, hg, hs] at h
          exact ⟨by rw [h], by rw [← h]; exact hs⟩
        · intro ⟨h1, _⟩
          obtain rfl : s = r := by injection h1
          simp [safe_get, hg, hs]
      · constructor
        · intro h
          simp [safe_get, hg, hs] at h
        · intro ⟨h1, h2⟩
          obtain rfl : s = r := by injection h1
          omega
  · cases hg : getf url with
    | error e => simp [safe_get, hg]
    | ok s =>
      by_cases hs : s.status_code < 400
      · simp [safe_get, hg, hs]
      · simp [safe_get, hg, hs]
        omega
  · cases hh : headf url with
    | error e => simp [head_ok, hh]
    | ok s => simp [head_ok, hh]
  · intro h
    simp [head_ok, h]

/-- Witness for C6: a raising HEAD transport probes false. -/
theorem fetcher_spec_witness :
    head_ok (fun _ => Except.error ()) "https://acme.com" = false :=
  (fetcher_spec (fun _ => Except.error ()) (fun _ => Except.error ())
    "https://acme.com").2.2.2 rfl

/-- Claim C3: the website guess tries `https://{lowercased space-stripped
name}.{tld}` for the TLDs `com, org, io, ai, net, co` in that order, returns
the first candidate whose HEAD probe succeeds (so a successful `.com` probe
wins outright), and returns `""` when every probe fails. -/
theorem guessWebsite_spec (headf : String → Except Unit Response) (name_clean : String) :
    TLDS = ["com", "org", "io", "ai", "net", "co"] ∧
    (∀ tld, candidateUrl name_clean tld =
      "https://" ++ stripSpaces (pyLower name_clean) ++ "." ++ tld) ∧
    ((∀ tld ∈ TLDS, head_ok headf (candidateUrl name_clean tld) = false) →
      guessWebsite headf name_clean = "") ∧
    (∀ l1 tld l2, TLDS = l1 ++ tld :: l2 →
      (∀ t ∈ l1, head_ok headf (candidateUrl name_clean t) = false) →
      head_ok headf (candidateUrl name_clean tld) = true →
      guessWebsite headf name_clean = candidateUrl name_clean tld) ∧
    (head_ok headf (candidateUrl name_clean "com") = true →
      guessWebsite headf name_clean = candidateUrl name_clean "com") := by
  have hfirst : ∀ l1 tld l2, TLDS = l1 ++ tld :: l2 →
      (∀ t ∈ l1, head_ok headf (candidateUrl name_clean t) = false) →
      head_ok headf (candidateUrl name_clean tld) = true →
      guessWebsite headf name_clean = candidateUrl name_clean tld := by
    intro l1 tld l2 hsplit h1 hp
    unfold guessWebsite
    rw [hsplit, find?_first _ l1 tld l2 h1 hp]
  refine ⟨rfl, fun _ => rfl, ?_, hfirst, ?_⟩
  · intro hall
    unfold guessWebsite
    rw [List.find?_eq_none.mpr ?_]
    intro t ht
    simp [hall t ht]
  · intro hcom
    exact hfirst [] "com" ["org", "io", "ai", "net", "co"] rfl (by simp) hcom

/-- Witness for C3: with a transport that answers every HEAD with 200, the
`.com` candidate wins. -/
theorem guessWebsite_spec_witness :
    guessWebsite (fun _ => Except.ok ⟨200, ""⟩) "Acme" = candidateUrl "Acme" "com" :=
  (guessWebsite_spec (fun _ => Except.ok ⟨200, ""⟩) "Acme").2.2.2.2 (by decide)

/-- Claim C4: `find_careers` returns, for the first anchor in document order
whose stripped lowercased href or lowercased text contains a careers keyword,
that anchor's stripped href — unchanged when it starts with `"http"`, else
joined against the base URL — and `""` when no anchor matches. -/
theorem find_careers_spec (parse : String → List Anchor) (uj : String → String → String)
    (base html : String) :
    ((∀ a ∈ parse html, careersMatch a = false) → find_careers parse uj base html = "") ∧
    (∀ l1 a l2, parse html = l1 ++ a :: l2 →
      (∀ b ∈ l1, careersMatch b = false) → careersMatch a = true →
      find_careers parse uj base html =
        (if strStartsWith (pyStrip a.href) "http" then pyStrip a.href else uj base (pyStrip a.href))) ∧
    (∀ a : Anchor, careersMatch a = true ↔
      ∃ kw ∈ CAREERS_KEYWORDS,
        (strContains (pyLower (pyStrip a.href)) kw = true ∨ strContains (pyLower a.text) kw = true)) := by
  refine ⟨?_, ?_, ?_⟩
  · intro hall
    unfold find_careers
    rw [List.find?_eq_none.mpr ?_]
    intro b hb
    simp [hall b hb]
  · intro l1 a l2 hsplit h1 ha
    unfold find_careers
    rw [hsplit, find?_first _ l1 a l2 h1 ha]
    rfl
  · intro a
    simp [careersMatch, List.any_eq_true]

/-- Witness for C4: the second anchor is the first match and its relative
href is joined against the base. -/
theorem find_careers_spec_witness :
    find_careers (fun _ => [⟨"/about", "About"⟩, ⟨"/careers", "Careers"⟩])
      (fun b h => b ++ h) "https://acme.com" "<html>" =
      (if strStartsWith (pyStrip "/careers") "http" then pyStrip "/careers"
       else "https://acme.com" ++ pyStrip "/careers") :=
  (find_careers_spec (fun _ => [⟨"/about", "About"⟩, ⟨"/careers", "Careers"⟩])
      (fun b h => b ++ h) "https://acme.com" "<html>").2.1
    [⟨"/about", "About"⟩] ⟨"/careers", "Careers"⟩ [] rfl (by decide) (by decide)

/-- Claim C5: `scrape_jobs_simple` never returns more than 3 entries, and the
entries are exactly the first at-most-3 anchors in document order with
non-empty visible text matching the role-keyword pattern and non-empty href
(an anchor with empty text is skipped regardless of href; a matching anchor
with empty href is skipped without being counted). -/
theorem scrape_jobs_spec (getf : String → Except Unit Response) (parse : String → List Anchor)
    (uj : String → String → String) (url : String) :
    (scrape_jobs_simple getf parse uj url).length ≤ 3 ∧
    scrape_jobs_simple getf parse uj url =
      (match safe_get getf url with
       | none => []
       | some r => (((parse r.text).filter goodAnchor).take 3).map (resolveJob uj url)) ∧
    (∀ a : Anchor, goodAnchor a = true ↔
      (a.text ≠ "" ∧ titleMatches a.text = true ∧ a.href ≠ "")) :=
  ⟨scrape_jobs_simple_length_le getf parse uj url,
   scrape_jobs_simple_eq getf parse uj url,
   fun a => by simp [goodAnchor, and_assoc]⟩

/-- Witness for C5: a page with five matching anchors yields only the first
three (document order), and a matching anchor with empty href is skipped. -/
theorem scrape_jobs_spec_witness :
    (scrape_jobs_simple (fun _ => Except.ok ⟨200, "b"⟩)
      (fun _ => [⟨"", "Engineer A"⟩, ⟨"/j1", ""⟩, ⟨"https://j2", "Manager B"⟩,
                 ⟨"https://j3", "Analyst C"⟩, ⟨"https://j4", "Designer D"⟩,
                 ⟨"https://j5", "Intern E"⟩])
      (fun _ h => h) "https://acme.com/careers").length ≤ 3 :=
  (scrape_jobs_spec (fun _ => Except.ok ⟨200, "b"⟩)
    (fun _ => [⟨"", "Engineer A"⟩, ⟨"/j1", ""⟩, ⟨"https://j2", "Manager B"⟩,
               ⟨"https://j3", "Analyst C"⟩, ⟨"https://j4", "Designer D"⟩,
               ⟨"https://j5", "Intern E"⟩])
    (fun _ h => h) "https://acme.com/careers").1

/-- Claim C10: every posting returned by `scrape_jobs_simple` has a non-empty
title containing (case-insensitively) a role keyword, a non-empty url
(provided `urljoin` sends a non-empty href to a non-empty URL), and empty
location and date. -/
theorem extractJobs_fields (getf : String → Except Unit Response) (parse : String → List Anchor)
    (uj : String → String → String) (url : String)
    (hj : ∀ b h, h ≠ "" → uj b h ≠ "") :
    ∀ j ∈ scrape_jobs_simple getf parse uj url,
      j.title ≠ "" ∧ (∃ kw ∈ ROLE_KEYWORDS, strContains (pyLower j.title) kw = true) ∧
      j.url ≠ "" ∧ j.location = "" ∧ j.date = "" := by
  intro j hjmem
  rw [scrape_jobs_simple_eq] at hjmem
  cases hget : safe_get getf url with
  | none => rw [hget] at hjmem; simp at hjmem
  | some r =>
    rw [hget] at hjmem
    simp only [List.mem_map] at hjmem
    obtain ⟨a, ha, rfl⟩ := hjmem
    have hamem : a ∈ (parse r.text).filter goodAnchor := List.mem_of_mem_take ha
    have hgood : goodAnchor a = true := (List.mem_filter.mp hamem).2
    simp only [goodAnchor, Bool.and_eq_true, decide_eq_true_eq] at hgood
    obtain ⟨⟨htext, hmatch⟩, hhref⟩ := hgood
    refine ⟨htext, ?_, ?_, rfl, rfl⟩
    · simpa [titleMatches, List.any_eq_true] using hmatch
    · simp only [resolveJob]
      by_cases hs : strStartsWith a.href "http"
      · simpa [hs] using hhref
      · simpa [hs] using hj url a.href hhref

/-- Witness for C10 at a one-anchor page whose single posting is checked. -/
theorem extractJobs_fields_witness :
    (⟨"https://a/j1", "Engineer", "", ""⟩ : JobPosting).title ≠ "" ∧
    (∃ kw ∈ ROLE_KEYWORDS,
      strContains (pyLower (⟨"https://a/j1", "Engineer", "", ""⟩ : JobPosting).title) kw = true) ∧
    (⟨"https://a/j1", "Engineer", "", ""⟩ : JobPosting).url ≠ "" ∧
    (⟨"https://a/j1", "Engineer", "", ""⟩ : JobPosting).location = "" ∧
    (⟨"https://a/j1", "Engineer", "", ""⟩ : JobPosting).date = "" :=
  extractJobs_fields (fun _ => Except.ok ⟨200, "b"⟩)
    (fun _ => [⟨"https://a/j1", "Engineer"⟩]) (fun _ _ => "r") "https://a"
    (fun _ _ _ => show ("r" : String) ≠ "" by decide)
    ⟨"https://a/j1", "Engineer", "", ""⟩ (by decide)

/-- Claim C1: for every input name (and any transport, parser and urljoin),
`process_company` totally produces a `CompanyResult` whose job slots number
exactly 3 — the extracted jobs followed by empty-field padding — and whose
`companyName` is the input stripped of surrounding whitespace. -/
theorem process_company_total (getf headf : String → Except Unit Response)
    (parse : String → List Anchor) (uj : String → String → String) (name : String) :
    (process_company getf headf parse uj name).jobs.length = 3 ∧
    (process_company getf headf parse uj name).companyName = pyStrip name ∧
    (process_company getf headf parse uj name).jobs =
      (pipelineRawJobs getf headf parse uj name).take 3 ++
        List.replicate (3 - (pipelineRawJobs getf headf parse uj name).length) emptyJob := by
  refine ⟨?_, rfl, ?_⟩
  · exact padJobs_length (pipelineJobs getf parse uj
      (pipelineJobsUrl (pipelineCareers getf parse uj (guessWebsite headf (pyStrip name)))
        (guessWebsite headf (pyStrip name))))
  · exact padJobs_eq (pipelineRawJobs getf headf parse uj name)

/-- Claim C7: `jobsListingURL` is the careers URL when non-empty, else the
website URL (so empty when both are); and when every TLD probe fails the
website, careers, jobs-listing URL and provider are all empty and all three
job slots are the empty placeholder. -/
theorem process_company_jobsUrl (getf headf : String → Except Unit Response)
    (parse : String → List Anchor) (uj : String → String → String) (name : String) :
    ((process_company getf headf parse uj name).jobsListingURL =
      if (process_company getf headf parse uj name).careersURL ≠ "" then
        (process_company getf headf parse uj name).careersURL
      else (process_company getf headf parse uj name).websiteURL) ∧
    ((∀ tld ∈ TLDS, head_ok headf (candidateUrl (pyStrip name) tld) = false) →
      (process_company getf headf parse uj name).websiteURL = "" ∧
      (process_company getf headf parse uj name).careersURL = "" ∧
      (process_company getf headf parse uj name).jobsListingURL = "" ∧
      (process_company getf headf parse uj name).provider = "" ∧
      (process_company getf headf parse uj name).jobs = List.replicate 3 emptyJob) := by
  constructor
  · show pipelineJobsUrl (pipelineCareers getf parse uj (guessWebsite headf (pyStrip name)))
        (guessWebsite headf (pyStrip name)) =
      if pipelineCareers getf parse uj (guessWebsite headf (pyStrip name)) ≠ "" then
        pipelineCareers getf parse uj (guessWebsite headf (pyStrip name))
      else guessWebsite headf (pyStrip name)
    by_cases hc : pipelineCareers getf parse uj (guessWebsite headf (pyStrip name)) = ""
    · by_cases hw : guessWebsite headf (pyStrip name) = "" <;>
        simp [pipelineJobsUrl, hc, hw]
    · simp [pipelineJobsUrl, hc]
  · intro hfail
    have hw : guessWebsite headf (pyStrip name) = "" := by
      have hnone : TLDS.find? (fun tld => head_ok headf (candidateUrl (pyStrip name) tld)) =
          none :=
        List.find?_eq_none.mpr (fun t ht => by simp [hfail t ht])
      unfold guessWebsite
      rw [hnone]
    refine ⟨hw, ?_, ?_, ?_, ?_⟩
    · show pipelineCareers getf parse uj (guessWebsite headf (pyStrip name)) = ""
      rw [hw]
      rfl
    · show pipelineJobsUrl (pipelineCareers getf parse uj (guessWebsite headf (pyStrip name)))
        (guessWebsite headf (pyStrip name)) = ""
      rw [hw]
      rfl
    · show detect_ats (pipelineJobsUrl
        (pipelineCareers getf parse uj (guessWebsite headf (pyStrip name)))
        (guessWebsite headf (pyStrip name))) = ""
      rw [hw]
      rfl
    · show padJobs (pipelineJobs getf parse uj (pipelineJobsUrl
        (pipelineCareers getf parse uj (guessWebsite headf (pyStrip name)))
        (guessWebsite headf (pyStrip name)))) = List.replicate 3 emptyJob
      rw [hw]
      rfl

/-- Witness for C7 with a transport whose every request raises. -/
theorem process_company_jobsUrl_witness :
    (process_company (fun _ => Except.error ()) (fun _ => Except.error ())
      (fun _ => []) (fun _ h => h) "Acme").websiteURL = "" ∧
    (process_company (fun _ => Except.error ()) (fun _ => Except.error ())
      (fun _ => []) (fun _ h => h) "Acme").careersURL = "" ∧
    (process_company (fun _ => Except.error ()) (fun _ => Except.error ())
      (fun _ => []) (fun _ h => h) "Acme").jobsListingURL = "" ∧
    (process_company (fun _ => Except.error ()) (fun _ => Except.error ())
      (fun _ => []) (fun _ h => h) "Acme").provider = "" ∧
    (process_company (fun _ => Except.error ()) (fun _ => Except.error ())
      (fun _ => []) (fun _ h => h) "Acme").jobs = List.replicate 3 emptyJob :=
  (process_company_jobsUrl (fun _ => Except.error ()) (fun _ => Except.error ())
    (fun _ => []) (fun _ h => h) "Acme").2 (by decide)

/-- Claim C8: `process_company` is deterministic in the name and the network
answers: two runs whose GET and HEAD transports agree on every URL produce
equal results. -/
theorem process_company_deterministic (getf1 getf2 headf1 headf2 : String → Except Unit Response)
    (parse : String → List Anchor) (uj : String → String → String) (name : String)
    (hg : ∀ u, getf1 u = getf2 u) (hh : ∀ u, headf1 u = headf2 u) :
    process_company getf1 headf1 parse uj name = process_company getf2 headf2 parse uj name := by
  rw [funext hg, funext hh]

/-- Witness for C8 at two syntactically distinct but pointwise-equal
transports. -/
theorem process_company_deterministic_witness :
    process_company (fun _ => Except.error ()) (fun _ => Except.error ())
      (fun _ => []) (fun _ h => h) "Acme" =
    process_company (fun u => if u = u then Except.error () else Except.ok ⟨200, ""⟩)
      (fun _ => Except.error ()) (fun _ => []) (fun _ h => h) "Acme" :=
  process_company_deterministic _ _ _ _ _ _ "Acme"
    (fun u => by simp) (fun _ => rfl)

/-- Claim C9: `linkedinURL` is always filled from the template
`https://www.linkedin.com/company/{lowercased, space-to-hyphen stripped
name}/`, is never empty, and for a name whose stripped form is empty equals
`https://www.linkedin.com/company//`. -/
theorem process_company_linkedin (getf headf : String → Except Unit Response)
    (parse : String → List Anchor) (uj : String → String → String) (name : String) :
    (process_company getf headf parse uj name).linkedinURL =
      "https://www.linkedin.com/company/" ++ hyphenate (pyLower (pyStrip name)) ++ "/" ∧
    (process_company getf headf parse uj name).linkedinURL ≠ "" ∧
    (pyStrip name = "" →
      (process_company getf headf parse uj name).linkedinURL =
        "https://www.linkedin.com/company//") := by
  refine ⟨rfl, ?_, ?_⟩
  · show "https://www.linkedin.com/company/" ++ hyphenate (pyLower (pyStrip name)) ++ "/" ≠ ""
    exact linkedin_ne_empty _
  · intro h
    show "https://www.linkedin.com/company/" ++ hyphenate (pyLower (pyStrip name)) ++ "/" = _
    rw [h]
    rfl

/-- Witness for C9 at a whitespace-only input name. -/
theorem process_company_linkedin_witness :
    (process_company (fun _ => Except.error ()) (fun _ => Except.error ())
      (fun _ => []) (fun _ h => h) "  ").linkedinURL = "https://www.linkedin.com/company//" :=
  (process_company_linkedin (fun _ => Except.error ()) (fun _ => Except.error ())
    (fun _ => []) (fun _ h => h) "  ").2.2 (by decide)

end WebScrape
